import Mathlib

/-!
Verification of the telemetry failure queue and retry manager
(`TelemetryQueue`, `TelemetryRetryManager`).

The TypeScript source is shallowly embedded: the durable key/value store is
reduced to the queue collection it holds plus a counter of write-backs, the
wall clock (`Date.now()`) and the generated ids are passed in as parameters,
and the injected asynchronous send function is modelled as a total function
into `Except` (a resolved promise is `Except.ok`, a rejected one is
`Except.error` carrying the message).  Observer callbacks are modelled as
ghost logs of the argument tuples they were invoked with.
-/

/-- Telemetry payloads are never inspected by this layer (they are passed
through to the send function unchanged), so they are modelled as bare
naturals. -/
abbrev TelemetryEventData := Nat

/-- One persisted retry candidate, mirroring the `QueuedTelemetryEvent`
interface: `id`, the payload `event`, the creation `timestamp`, the
`retryCount`, the optional `lastRetryTimestamp` backoff anchor and the
optional last `error` message. -/
structure QueuedTelemetryEvent where
  id : String
  event : TelemetryEventData
  timestamp : Nat
  retryCount : Nat
  lastRetryTimestamp : Option Nat
  error : Option String
  deriving DecidableEq

/-- Mirrors `TelemetryQueueConfig`. -/
structure TelemetryQueueConfig where
  maxQueueSize : Nat
  maxRetries : Nat
  queueSizeWarningThreshold : Nat
  deriving DecidableEq

/-- The durable store as seen by the queue: the persisted collection under
`QUEUE_KEY`, together with a ghost counter of how many times the collection
was written back (`saveQueue` calls). -/
structure GlobalState where
  queue : List QueuedTelemetryEvent
  queueWrites : Nat
  deriving DecidableEq

/-- JavaScript truthiness of an optional number: `!x` is true when `x` is
`undefined` or `0`. -/
def jsFalsyNum : Option Nat → Bool
  | none => true
  | some t => t == 0

/-- JavaScript truthiness of an optional string: `x` is truthy when it is
present and non-empty. -/
def jsTruthyStr : Option String → Bool
  | none => false
  | some s => !(s == "")

/-- JavaScript `Array.prototype.findIndex` with the miss (`-1`) rendered as `none`:
index of the first element satisfying the predicate. -/
def jsFindIndex (p : α → Bool) : List α → Option Nat
  | [] => none
  | a :: as => if p a then some 0 else (jsFindIndex p as).map (· + 1)

/-- JavaScript `Array.prototype.splice(i, 1)`: remove the element at index `i`. -/
def listRemoveAt : List α → Nat → List α
  | [], _ => []
  | _ :: as, 0 => as
  | a :: as, n + 1 => a :: listRemoveAt as n

/-- In-place update of the element at index `i`, as performed by the
`queue[index].field = …` assignments in the source. -/
def listModify (f : α → α) : List α → Nat → List α
  | [], _ => []
  | a :: as, 0 => f a :: as
  | a :: as, n + 1 => a :: listModify f as n

namespace TelemetryQueue

/-- Method `TelemetryQueue.enqueue(event, error?)`: if the collection already holds
`maxQueueSize` or more events, `shift()` the oldest one, then push a fresh
record with `retryCount` 0, no `lastRetryTimestamp` and the supplied error,
and persist.  `Date.now()` and the generated id enter as the `now` and
`newId` parameters. -/
def enqueue (cfg : TelemetryQueueConfig) (now : Nat) (newId : String)
    (event : TelemetryEventData) (error : Option String) (s : GlobalState) : GlobalState :=
  let queue := s.queue
  let queue1 := if cfg.maxQueueSize ≤ queue.length then queue.tail else queue
  let queuedEvent : QueuedTelemetryEvent :=
    { id := newId, event := event, timestamp := now, retryCount := 0,
      lastRetryTimestamp := none, error := error }
  { queue := queue1 ++ [queuedEvent], queueWrites := s.queueWrites + 1 }

/-- The filter predicate of `TelemetryQueue.getEventsForRetry`, including the
JavaScript-truthiness test `!item.lastRetryTimestamp` (true for an absent
anchor and for the anchor `0`). -/
def retryFilter (cfg : TelemetryQueueConfig) (now : Nat) (item : QueuedTelemetryEvent) : Bool :=
  if cfg.maxRetries ≤ item.retryCount then false
  else if jsFalsyNum item.lastRetryTimestamp then true
  else
    let backoffMs := 2 ^ item.retryCount * 1000
    let nextRetryTime := item.lastRetryTimestamp.getD 0 + backoffMs
    decide (nextRetryTime ≤ now)

/-- Method `TelemetryQueue.getEventsForRetry()`: the stored-order subset of the
collection passing `retryFilter`; the method performs no write. -/
def getEventsForRetry (cfg : TelemetryQueueConfig) (now : Nat) (s : GlobalState) :
    List QueuedTelemetryEvent :=
  s.queue.filter (retryFilter cfg now)

/-- Method `TelemetryQueue.updateEventAfterRetry(id, success, error?)`: locate the
first event with the given id (no-op when absent, before any write); on
success splice it out, on failure bump `retryCount`, stamp
`lastRetryTimestamp := now` and overwrite `error`; then persist. -/
def updateEventAfterRetry (now : Nat) (id : String) (success : Bool)
    (error : Option String) (s : GlobalState) : GlobalState :=
  match jsFindIndex (fun item => item.id == id) s.queue with
  | none => s
  | some index =>
    let queue :=
      if success then listRemoveAt s.queue index
      else listModify
        (fun item =>
          { item with retryCount := item.retryCount + 1,
                      lastRetryTimestamp := some now, error := error })
        s.queue index
    { queue := queue, queueWrites := s.queueWrites + 1 }

/-- Method `TelemetryQueue.pruneFailedEvents()`: drop every event whose
`retryCount` reached `maxRetries`, write back only when something was
dropped, and return the number removed. -/
def pruneFailedEvents (cfg : TelemetryQueueConfig) (s : GlobalState) : Nat × GlobalState :=
  let originalSize := s.queue.length
  let prunedQueue := s.queue.filter (fun item => item.retryCount < cfg.maxRetries)
  if prunedQueue.length ≠ originalSize then
    (originalSize - prunedQueue.length,
      { queue := prunedQueue, queueWrites := s.queueWrites + 1 })
  else
    (originalSize - prunedQueue.length, s)

/-- Result shape of `TelemetryQueue.getQueueMetadata()`. -/
structure QueueMetadata where
  size : Nat
  oldestEventTimestamp : Option Nat
  newestEventTimestamp : Option Nat
  isAboveWarningThreshold : Bool
  deriving DecidableEq

/-- Method `TelemetryQueue.getQueueMetadata()`: size, first/last `timestamp` and the
`size >= queueSizeWarningThreshold` flag. -/
def getQueueMetadata (cfg : TelemetryQueueConfig) (s : GlobalState) : QueueMetadata :=
  { size := s.queue.length,
    oldestEventTimestamp := s.queue.head?.map (·.timestamp),
    newestEventTimestamp := s.queue.getLast?.map (·.timestamp),
    isAboveWarningThreshold := decide (cfg.queueSizeWarningThreshold ≤ s.queue.length) }

end TelemetryQueue

/-- Mirrors `RetryManagerConfig` (the two observer callbacks are modelled as
ghost logs in `ManagerState`). -/
structure RetryManagerConfig where
  retryIntervalMs : Nat
  batchSize : Nat
  deriving DecidableEq

/-- Per-event result record produced by the dispatch tasks inside
`processBatch` (`{ id, success, error? }`). -/
structure BatchOutcome where
  id : String
  success : Bool
  error : Option String
  deriving DecidableEq

/-- The injected transport: a resolved `sendEvent` promise is `Except.ok`,
a rejected one is `Except.error` with the message. -/
abbrev SendFn := TelemetryEventData → Except String Unit

/-- The reserved payload of the sentinel `telemetry_connection_check` event
sent by the connectivity probe. -/
def connectionCheckEvent : TelemetryEventData := 0

namespace TelemetryRetryManager

/-- The mutable fields of `TelemetryRetryManager`, together with the durable
store and three ghost logs: the arguments of every
`onConnectionStatusChange` invocation, of every `onQueueSizeChange`
invocation (`(size, isAboveThreshold)`), and of every
`queue.updateEventAfterRetry` call issued by batch processing. -/
structure ManagerState where
  store : GlobalState
  isProcessing : Bool
  isConnected : Bool
  lastConnectionCheck : Nat
  connCalls : List Bool
  sizeCalls : List (Nat × Bool)
  updateCalls : List (String × Bool × Option String)
  deriving DecidableEq

/-- Method `updateConnectionStatus(isConnected)`: early return on a same-value
update, otherwise store the new flag and invoke the status callback. -/
def updateConnectionStatus (isConnected : Bool) (m : ManagerState) : ManagerState :=
  if m.isConnected == isConnected then m
  else { m with isConnected := isConnected, connCalls := m.connCalls ++ [isConnected] }

/-- Method `notifyQueueSizeChange()`: read the queue metadata and invoke the size
callback with `(size, isAboveWarningThreshold)`. -/
def notifyQueueSizeChange (cfg : TelemetryQueueConfig) (m : ManagerState) : ManagerState :=
  let metadata := TelemetryQueue.getQueueMetadata cfg m.store
  { m with sizeCalls := m.sizeCalls ++ [(metadata.size, metadata.isAboveWarningThreshold)] }

/-- Method `queueFailedEvent(event, error?)`: enqueue, flip to disconnected when a
truthy error arrives while connected, then fire the size callback. -/
def queueFailedEvent (cfg : TelemetryQueueConfig) (now : Nat) (newId : String)
    (event : TelemetryEventData) (error : Option String) (m : ManagerState) : ManagerState :=
  let m1 := { m with store := TelemetryQueue.enqueue cfg now newId event error m.store }
  let m2 := if jsTruthyStr error && m1.isConnected then updateConnectionStatus false m1 else m1
  notifyQueueSizeChange cfg m2

/-- One dispatch task of `processBatch`: `try { await send; return ok record }
catch { return failure record }`.  The task itself always fulfills
(`Except.ok`); a rejected task would be `Except.error`. -/
def dispatchTask (send : SendFn) (queuedEvent : QueuedTelemetryEvent) :
    Except String BatchOutcome :=
  match send queuedEvent.event with
  | Except.ok _ => Except.ok { id := queuedEvent.id, success := true, error := none }
  | Except.error e =>
    Except.ok { id := queuedEvent.id, success := false, error := some e }

/-- Whether the injected send function delivers the given queued event. -/
def sendOk (send : SendFn) (queuedEvent : QueuedTelemetryEvent) : Bool :=
  match send queuedEvent.event with
  | Except.ok _ => true
  | Except.error _ => false

/-- The error message the dispatch task records for the given queued event
(`none` on success). -/
def sendErr (send : SendFn) (queuedEvent : QueuedTelemetryEvent) : Option String :=
  match send queuedEvent.event with
  | Except.ok _ => none
  | Except.error e => some e

/-- The success test applied to each settled result in the `processBatch`
counting loop (a rejected result is counted by neither test). -/
def fulfilledSuccess : Except String BatchOutcome → Bool
  | Except.ok o => o.success
  | Except.error _ => false

/-- The failure test applied to each settled result in the `processBatch`
counting loop. -/
def fulfilledFailure : Except String BatchOutcome → Bool
  | Except.ok o => !o.success
  | Except.error _ => false

/-- The per-result step of the `processBatch` update loop: a fulfilled
result feeds its outcome through `updateEventAfterRetry` (and is logged), a
rejected result is skipped. -/
def applyResult (now : Nat) (m : ManagerState) (result : Except String BatchOutcome) :
    ManagerState :=
  match result with
  | Except.ok o =>
    { m with
        store := TelemetryQueue.updateEventAfterRetry now o.id o.success o.error m.store,
        updateCalls := m.updateCalls ++ [(o.id, o.success, o.error)] }
  | Except.error _ => m

/-- Method `processBatch(batch)`: settle all dispatch tasks, feed each fulfilled
outcome through `updateEventAfterRetry` (rejected results are skipped),
count successes and failures, and derive the connection status from the
aggregate outcome. -/
def processBatch (send : SendFn) (now : Nat) (batch : List QueuedTelemetryEvent)
    (m : ManagerState) : ManagerState :=
  let results := batch.map (dispatchTask send)
  let m1 := results.foldl (applyResult now) m
  let successCount := results.countP fulfilledSuccess
  let failureCount := results.countP fulfilledFailure
  if successCount > 0 && !m1.isConnected then updateConnectionStatus true m1
  else if failureCount == batch.length && m1.isConnected then updateConnectionStatus false m1
  else m1

/-- Method `checkConnectionStatus()`: at most once per 60 s, probe the transport
with the sentinel event and flip the status on a probe outcome that differs
from the current belief. -/
def checkConnectionStatus (send : SendFn) (now : Nat) (m : ManagerState) : ManagerState :=
  if now - m.lastConnectionCheck < 60000 then m
  else
    let m1 := { m with lastConnectionCheck := now }
    match send connectionCheckEvent with
    | Except.ok _ => if !m1.isConnected then updateConnectionStatus true m1 else m1
    | Except.error _ => if m1.isConnected then updateConnectionStatus false m1 else m1

/-- Structural worker for `createBatches`: the fuel starts at the item
count and strictly dominates the number of loop iterations, since every
iteration consumes at least one item. -/
def createBatchesGo (batchSize : Nat) : Nat → List α → List (List α)
  | _, [] => []
  | 0, _ => []
  | fuel + 1, items =>
    if batchSize = 0 then []
    else items.take batchSize :: createBatchesGo batchSize fuel (items.drop batchSize)

/-- Method `createBatches(items, batchSize)`: split into consecutive chunks of
`batchSize`, preserving order.  (The source loop would not terminate on
`batchSize = 0`; that argument is the constant 10 in the program, and the
model returns no batches there.) -/
def createBatches (batchSize : Nat) (items : List α) : List (List α) :=
  createBatchesGo batchSize items.length items

/-- One processing cycle, `processQueue()`: drop out when the re-entrancy
guard is held; otherwise prune, collect the eligible events, and — only when
that set is non-empty — dispatch the batches sequentially, run the
connectivity probe and fire the size callback; finally release the guard. -/
def processQueue (cfg : TelemetryQueueConfig) (mcfg : RetryManagerConfig)
    (send : SendFn) (now : Nat) (m : ManagerState) : ManagerState :=
  if m.isProcessing then m
  else
    let m1 := { m with isProcessing := true }
    let pruned := TelemetryQueue.pruneFailedEvents cfg m1.store
    let m2 := { m1 with store := pruned.2 }
    let eventsToRetry := TelemetryQueue.getEventsForRetry cfg now m2.store
    if eventsToRetry.isEmpty then { m2 with isProcessing := false }
    else
      let batches := createBatches mcfg.batchSize eventsToRetry
      let m3 := batches.foldl (fun acc batch => processBatch send now batch acc) m2
      let m4 := checkConnectionStatus send now m3
      let m5 := notifyQueueSizeChange cfg m4
      { m5 with isProcessing := false }

end TelemetryRetryManager

/-- One `enqueue` call's ambient data: the clock value, the generated id, the
payload and the optional error message. -/
structure EnqueueInput where
  now : Nat
  newId : String
  event : TelemetryEventData
  error : Option String
  deriving DecidableEq

/-- The queued record a single `enqueue` call appends. -/
def mkQueuedEvent (inp : EnqueueInput) : QueuedTelemetryEvent :=
  { id := inp.newId, event := inp.event, timestamp := inp.now, retryCount := 0,
    lastRetryTimestamp := none, error := inp.error }

/-- A sequence of `enqueue` calls, oldest first. -/
def enqueueAll (cfg : TelemetryQueueConfig) (inputs : List EnqueueInput)
    (s : GlobalState) : GlobalState :=
  inputs.foldl
    (fun st inp => TelemetryQueue.enqueue cfg inp.now inp.newId inp.event inp.error st) s

/-- A filter that removes nothing is the identity. -/
theorem filter_of_length_eq {α : Type} (p : α → Bool) :
    ∀ l : List α, (l.filter p).length = l.length → l.filter p = l := by
  intro l
  induction l with
  | nil => intro _; rfl
  | cons a l ih =>
    intro h
    by_cases hp : p a = true
    · simp only [List.filter_cons, hp, if_true, List.length_cons] at h ⊢
      exact congrArg (a :: ·) (ih (Nat.succ_injective h))
    · have hle := List.length_filter_le p l
      simp only [List.filter_cons, hp, if_false, List.length_cons,
        Bool.false_eq_true] at h
      omega

/-- Removed-element count of a filter, as the count of the complement. -/
theorem length_sub_filter_length {α : Type} (p : α → Bool) :
    ∀ l : List α, l.length - (l.filter p).length = l.countP (fun a => !(p a)) := by
  intro l
  induction l with
  | nil => rfl
  | cons a l ih =>
    have hle := List.length_filter_le p l
    by_cases hp : p a = true
    · simp only [List.filter_cons, hp, if_true, List.length_cons, List.countP_cons,
        Bool.not_true, Bool.false_eq_true, if_false, Nat.succ_sub_succ]
      omega
    · simp only [List.filter_cons, hp, Bool.false_eq_true, if_false, List.length_cons,
        List.countP_cons]
      simp only [Bool.not_eq_true] at hp
      simp only [hp, Bool.not_false, if_true]
      omega

/-- C3.  `pruneFailedEvents` keeps exactly the events still under
`maxRetries` (hence survivors keep their relative order), returns the number
of events it dropped — the count of events with `retryCount ≥ maxRetries`,
`0` when none qualify — and writes the collection back only when the
filtered collection is actually shorter. -/
theorem pruneFailedEvents_removes_exactly_exhausted (cfg : TelemetryQueueConfig)
    (s : GlobalState) :
    (TelemetryQueue.pruneFailedEvents cfg s).1
        = s.queue.countP (fun e => decide (cfg.maxRetries ≤ e.retryCount))
    ∧ (TelemetryQueue.pruneFailedEvents cfg s).2.queue
        = s.queue.filter (fun e => decide (e.retryCount < cfg.maxRetries))
    ∧ (TelemetryQueue.pruneFailedEvents cfg s).2.queueWrites
        = (if (s.queue.filter (fun e => decide (e.retryCount < cfg.maxRetries))).length
              = s.queue.length
           then s.queueWrites
           else s.queueWrites + 1) := by
  have hcount :
      s.queue.length
          - (s.queue.filter (fun e => decide (e.retryCount < cfg.maxRetries))).length
        = s.queue.countP (fun e => decide (cfg.maxRetries ≤ e.retryCount)) := by
    rw [length_sub_filter_length]
    have hfun :
        (fun e : QueuedTelemetryEvent => !(decide (e.retryCount < cfg.maxRetries)))
          = fun e : QueuedTelemetryEvent => decide (cfg.maxRetries ≤ e.retryCount) := by
      funext e
      by_cases h : e.retryCount < cfg.maxRetries
      · simp [h, Nat.not_le.mpr h]
      · simp [h, Nat.le_of_not_lt h]
    rw [hfun]
  by_cases hlen :
      (s.queue.filter (fun e => decide (e.retryCount < cfg.maxRetries))).length
        = s.queue.length
  · have hid := filter_of_length_eq (fun e => decide (e.retryCount < cfg.maxRetries))
      s.queue hlen
    have h1 : TelemetryQueue.pruneFailedEvents cfg s
        = (s.queue.length
            - (s.queue.filter (fun e => decide (e.retryCount < cfg.maxRetries))).length,
           s) := by
      unfold TelemetryQueue.pruneFailedEvents
      exact if_neg (by simp [hlen])
    rw [h1]
    exact ⟨hcount, hid.symm, by simp [hlen]⟩
  · have h1 : TelemetryQueue.pruneFailedEvents cfg s
        = (s.queue.length
            - (s.queue.filter (fun e => decide (e.retryCount < cfg.maxRetries))).length,
           { queue := s.queue.filter (fun e => decide (e.retryCount < cfg.maxRetries)),
             queueWrites := s.queueWrites + 1 }) := by
      unfold TelemetryQueue.pruneFailedEvents
      exact if_pos hlen
    rw [h1]
    exact ⟨hcount, rfl, by simp [hlen]⟩

/-- Projection of `enqueue` onto the stored collection. -/
theorem enqueue_queue_eq (cfg : TelemetryQueueConfig) (now : Nat) (newId : String)
    (event : TelemetryEventData) (error : Option String) (s : GlobalState) :
    (TelemetryQueue.enqueue cfg now newId event error s).queue
      = (if cfg.maxQueueSize ≤ s.queue.length then s.queue.tail else s.queue)
        ++ [{ id := newId, event := event, timestamp := now, retryCount := 0,
              lastRetryTimestamp := none, error := error }] := rfl

/-- Running a sequence of enqueues over a store whose queue is within
capacity keeps, at every step, exactly the most recent `maxQueueSize`
records: the final queue is the suffix of all appended records that fits. -/
theorem enqueueAll_queue_eq (cfg : TelemetryQueueConfig) (hcap : 0 < cfg.maxQueueSize) :
    ∀ (inputs : List EnqueueInput) (s : GlobalState),
      s.queue.length ≤ cfg.maxQueueSize →
      (enqueueAll cfg inputs s).queue
        = (s.queue ++ inputs.map mkQueuedEvent).drop
            (s.queue.length + inputs.length - cfg.maxQueueSize) := by
  intro inputs
  induction inputs with
  | nil =>
    intro s hs
    have h0 : s.queue.length - cfg.maxQueueSize = 0 := by omega
    simp [enqueueAll, h0]
  | cons inp rest ih =>
    intro s hs
    have hstep : enqueueAll cfg (inp :: rest) s
        = enqueueAll cfg rest
            (TelemetryQueue.enqueue cfg inp.now inp.newId inp.event inp.error s) := rfl
    rw [hstep]
    by_cases hfull : cfg.maxQueueSize ≤ s.queue.length
    · have heq : s.queue.length = cfg.maxQueueSize := le_antisymm hs hfull
      obtain ⟨a, t, hat⟩ : ∃ a t, s.queue = a :: t := by
        cases hq : s.queue with
        | nil => rw [hq] at heq; simp at heq; omega
        | cons a t => exact ⟨a, t, rfl⟩
      have htlen : t.length + 1 = cfg.maxQueueSize := by
        rw [hat] at heq; simpa using heq
      have henq : (TelemetryQueue.enqueue cfg inp.now inp.newId inp.event inp.error s).queue
          = t ++ [mkQueuedEvent inp] := by
        rw [enqueue_queue_eq, if_pos hfull, hat]
        rfl
      have hlen2 : (TelemetryQueue.enqueue cfg inp.now inp.newId inp.event
          inp.error s).queue.length ≤ cfg.maxQueueSize := by
        rw [henq]
        simp only [List.length_append, List.length_cons, List.length_nil]
        omega
      rw [ih _ hlen2, henq, hat]
      have hidx1 : (t ++ [mkQueuedEvent inp]).length + rest.length - cfg.maxQueueSize
          = rest.length := by
        simp only [List.length_append, List.length_cons, List.length_nil]
        omega
      have hidx2 : (a :: t).length + (inp :: rest).length - cfg.maxQueueSize
          = rest.length + 1 := by
        simp only [List.length_cons]
        omega
      rw [hidx1, hidx2]
      simp [List.append_assoc]
    · have hlt : s.queue.length < cfg.maxQueueSize := Nat.lt_of_not_le hfull
      have henq : (TelemetryQueue.enqueue cfg inp.now inp.newId inp.event inp.error s).queue
          = s.queue ++ [mkQueuedEvent inp] := by
        rw [enqueue_queue_eq, if_neg hfull]
        rfl
      have hlen2 : (TelemetryQueue.enqueue cfg inp.now inp.newId inp.event
          inp.error s).queue.length ≤ cfg.maxQueueSize := by
        rw [henq]
        simp only [List.length_append, List.length_cons, List.length_nil]
        omega
      rw [ih _ hlen2, henq]
      have hidx : (s.queue ++ [mkQueuedEvent inp]).length + rest.length - cfg.maxQueueSize
          = s.queue.length + (inp :: rest).length - cfg.maxQueueSize := by
        simp only [List.length_append, List.length_cons, List.length_nil]
        omega
      rw [hidx]
      simp [List.append_assoc]

/-- C1.  Starting from an empty store, any sequence of enqueues leaves
exactly the most recently enqueued records that fit under `maxQueueSize`, in
their original relative order: the queue is the length-`maxQueueSize` suffix
of all appended records, so its length is `min (number of enqueues)
maxQueueSize` and never exceeds the capacity; moreover every enqueue against
a full (or over-full) queue evicts exactly the single oldest record (index
0) before appending the new one. -/
theorem enqueue_capacity_fifo (cfg : TelemetryQueueConfig) (hcap : 0 < cfg.maxQueueSize)
    (inputs : List EnqueueInput) :
    (enqueueAll cfg inputs { queue := [], queueWrites := 0 }).queue
        = (inputs.map mkQueuedEvent).drop (inputs.length - cfg.maxQueueSize)
    ∧ (enqueueAll cfg inputs { queue := [], queueWrites := 0 }).queue.length
        = min inputs.length cfg.maxQueueSize
    ∧ (∀ (s : GlobalState) (inp : EnqueueInput), cfg.maxQueueSize ≤ s.queue.length →
        (TelemetryQueue.enqueue cfg inp.now inp.newId inp.event inp.error s).queue
          = s.queue.tail ++ [mkQueuedEvent inp]) := by
  have hmain := enqueueAll_queue_eq cfg hcap inputs { queue := [], queueWrites := 0 }
    (by simp)
  simp only [List.nil_append, List.length_nil, Nat.zero_add] at hmain
  refine ⟨hmain, ?_, ?_⟩
  · rw [hmain]
    simp only [List.length_drop, List.length_map]
    omega
  · intro s inp hfull
    rw [enqueue_queue_eq, if_pos hfull]
    rfl

/-- A capacity-3 configuration used for concrete checks (scenario A of the
spec's testable properties). -/
def capThreeConfig : TelemetryQueueConfig :=
  { maxQueueSize := 3, maxRetries := 5, queueSizeWarningThreshold := 100 }

/-- Four enqueue calls, oldest first. -/
def fourInputs : List EnqueueInput :=
  [{ now := 1, newId := "e1", event := 1, error := none },
   { now := 2, newId := "e2", event := 2, error := none },
   { now := 3, newId := "e3", event := 3, error := none },
   { now := 4, newId := "e4", event := 4, error := none }]

/-- Witness for C1: four enqueues into a capacity-3 queue leave exactly the
2nd, 3rd and 4th records, in order. -/
theorem enqueue_capacity_fifo_witness :
    (enqueueAll capThreeConfig fourInputs { queue := [], queueWrites := 0 }).queue
        = [mkQueuedEvent { now := 2, newId := "e2", event := 2, error := none },
           mkQueuedEvent { now := 3, newId := "e3", event := 3, error := none },
           mkQueuedEvent { now := 4, newId := "e4", event := 4, error := none }]
    ∧ (enqueueAll capThreeConfig fourInputs { queue := [], queueWrites := 0 }).queue.length
        = 3 := by
  have h := enqueue_capacity_fifo capThreeConfig (by decide) fourInputs
  exact ⟨h.1.trans (by decide), h.2.1.trans (by decide)⟩

/-- When a predicate misses everywhere, `findIndex` reports no index. -/
theorem jsFindIndex_eq_none {α : Type} (p : α → Bool) :
    ∀ l : List α, (∀ x ∈ l, p x = false) → jsFindIndex p l = none := by
  intro l
  induction l with
  | nil => intro _; rfl
  | cons a l ih =>
    intro h
    have ha := h a (List.mem_cons_self a l)
    simp only [jsFindIndex, ha, Bool.false_eq_true, if_false]
    rw [ih (fun x hx => h x (List.mem_cons_of_mem a hx))]
    rfl

/-- The `findIndex` search locates the first hit: with no hit in `pre` and a hit at
`e`, the reported index is `pre.length`. -/
theorem jsFindIndex_first {α : Type} (p : α → Bool) (e : α) (post : List α)
    (he : p e = true) :
    ∀ pre : List α, (∀ x ∈ pre, p x = false) →
      jsFindIndex p (pre ++ e :: post) = some pre.length := by
  intro pre
  induction pre with
  | nil =>
    intro _
    simp [jsFindIndex, he]
  | cons a pre ih =>
    intro h
    have ha := h a (List.mem_cons_self a pre)
    simp only [List.cons_append, jsFindIndex, ha, Bool.false_eq_true, if_false]
    show Option.map (fun x => x + 1) (jsFindIndex p (pre ++ e :: post))
      = some (a :: pre).length
    rw [ih (fun x hx => h x (List.mem_cons_of_mem a hx))]
    rfl

/-- Splice-removal at the index of the marked element. -/
theorem listRemoveAt_append {α : Type} (e : α) (post : List α) :
    ∀ pre : List α, listRemoveAt (pre ++ e :: post) pre.length = pre ++ post := by
  intro pre
  induction pre with
  | nil => rfl
  | cons a pre ih =>
    simp only [List.cons_append, List.length_cons, listRemoveAt]
    exact congrArg (a :: ·) ih

/-- In-place update at the index of the marked element. -/
theorem listModify_append {α : Type} (f : α → α) (e : α) (post : List α) :
    ∀ pre : List α, listModify f (pre ++ e :: post) pre.length = pre ++ f e :: post := by
  intro pre
  induction pre with
  | nil => rfl
  | cons a pre ih =>
    simp only [List.cons_append, List.length_cons, listModify]
    exact congrArg (a :: ·) ih

/-- C4.  With the id occurring exactly once — `pre` and `post` are free of
it — `updateEventAfterRetry(id, true)` removes exactly that one event,
leaving the others in relative order and writing once; on a queue without
the id it is a complete no-op (not an error, no write); consequently a
second success-update with the same id leaves everything unchanged. -/
theorem updateEventAfterRetry_success_removes_once (now now2 : Nat) (id : String)
    (err err2 : Option String) (s : GlobalState)
    (pre post : List QueuedTelemetryEvent) (e : QueuedTelemetryEvent)
    (hq : s.queue = pre ++ e :: post)
    (hpre : ∀ x ∈ pre, (x.id == id) = false)
    (he : (e.id == id) = true)
    (hpost : ∀ x ∈ post, (x.id == id) = false) :
    TelemetryQueue.updateEventAfterRetry now id true err s
        = { queue := pre ++ post, queueWrites := s.queueWrites + 1 }
    ∧ (∀ s2 : GlobalState, (∀ x ∈ s2.queue, (x.id == id) = false) →
        TelemetryQueue.updateEventAfterRetry now2 id true err2 s2 = s2)
    ∧ TelemetryQueue.updateEventAfterRetry now2 id true err2
          (TelemetryQueue.updateEventAfterRetry now id true err s)
        = TelemetryQueue.updateEventAfterRetry now id true err s := by
  have hnoop : ∀ s2 : GlobalState, (∀ x ∈ s2.queue, (x.id == id) = false) →
      TelemetryQueue.updateEventAfterRetry now2 id true err2 s2 = s2 := by
    intro s2 h2
    unfold TelemetryQueue.updateEventAfterRetry
    rw [jsFindIndex_eq_none _ s2.queue h2]
  have hremove : TelemetryQueue.updateEventAfterRetry now id true err s
      = { queue := pre ++ post, queueWrites := s.queueWrites + 1 } := by
    unfold TelemetryQueue.updateEventAfterRetry
    rw [hq, jsFindIndex_first _ e post he pre hpre]
    simp only [if_true, listRemoveAt_append]
  refine ⟨hremove, hnoop, ?_⟩
  rw [hremove]
  exact hnoop _ (by
    intro x hx
    rcases List.mem_append.mp hx with hx1 | hx2
    · exact hpre x hx1
    · exact hpost x hx2)

/-- A one-event store used in concrete update checks. -/
def matchEvent : QueuedTelemetryEvent :=
  { id := "m", event := 5, timestamp := 10, retryCount := 2,
    lastRetryTimestamp := some 10, error := some "old" }

/-- A neighbouring event with a different id. -/
def otherEvent : QueuedTelemetryEvent :=
  { id := "n", event := 6, timestamp := 11, retryCount := 0,
    lastRetryTimestamp := none, error := none }

/-- Witness for C4: removing `"m"` from a two-event store keeps the other
event, and a repeated success-update is a no-op. -/
theorem updateEventAfterRetry_success_removes_once_witness :
    TelemetryQueue.updateEventAfterRetry 20 "m" true none
        { queue := [matchEvent, otherEvent], queueWrites := 4 }
      = { queue := [otherEvent], queueWrites := 5 }
    ∧ TelemetryQueue.updateEventAfterRetry 21 "m" true none
          (TelemetryQueue.updateEventAfterRetry 20 "m" true none
            { queue := [matchEvent, otherEvent], queueWrites := 4 })
      = TelemetryQueue.updateEventAfterRetry 20 "m" true none
          { queue := [matchEvent, otherEvent], queueWrites := 4 } := by
  have h := updateEventAfterRetry_success_removes_once 20 21 "m" none none
    { queue := [matchEvent, otherEvent], queueWrites := 4 }
    [] [otherEvent] matchEvent rfl (by decide) (by decide) (by decide)
  exact ⟨h.1.trans (by decide), h.2.2⟩

/-- C5.  On failure, `updateEventAfterRetry(id, false, error)` rewrites the
first event carrying the id — incrementing `retryCount` by one, stamping
`lastRetryTimestamp` with the clock and overwriting `error` (clearing it
when the argument is absent) while `id`, `event` payload and creation
`timestamp` are untouched — leaves every other event unchanged in place, and
writes the collection back once. -/
theorem updateEventAfterRetry_failure_frame (now : Nat) (id : String)
    (err : Option String) (s : GlobalState)
    (pre post : List QueuedTelemetryEvent) (e : QueuedTelemetryEvent)
    (hq : s.queue = pre ++ e :: post)
    (hpre : ∀ x ∈ pre, (x.id == id) = false)
    (he : (e.id == id) = true) :
    TelemetryQueue.updateEventAfterRetry now id false err s
      = { queue := pre ++
            { id := e.id, event := e.event, timestamp := e.timestamp,
              retryCount := e.retryCount + 1, lastRetryTimestamp := some now,
              error := err } :: post,
          queueWrites := s.queueWrites + 1 } := by
  unfold TelemetryQueue.updateEventAfterRetry
  rw [hq, jsFindIndex_first _ e post he pre hpre]
  simp only [Bool.false_eq_true, if_false, listModify_append]

/-- Witness for C5: failing the event `"m"` bumps its retry count from 2 to
3, re-anchors the backoff at the given clock, replaces the old error note,
and leaves the neighbouring event alone. -/
theorem updateEventAfterRetry_failure_frame_witness :
    TelemetryQueue.updateEventAfterRetry 30 "m" false (some "boom")
        { queue := [otherEvent, matchEvent], queueWrites := 4 }
      = { queue := [otherEvent,
            { id := "m", event := 5, timestamp := 10, retryCount := 3,
              lastRetryTimestamp := some 30, error := some "boom" }],
          queueWrites := 5 } := by
  have h := updateEventAfterRetry_failure_frame 30 "m" (some "boom")
    { queue := [otherEvent, matchEvent], queueWrites := 4 }
    [otherEvent] [] matchEvent rfl (by decide) (by decide)
  exact h.trans (by decide)

/-- The default configuration used by both the queue and the client
(`maxQueueSize` 1000, `maxRetries` 5, warning threshold 100). -/
def defaultQueueConfig : TelemetryQueueConfig :=
  { maxQueueSize := 1000, maxRetries := 5, queueSizeWarningThreshold := 100 }

/-- The default retry-manager configuration (30 s interval, batches of 10). -/
def defaultRetryConfig : RetryManagerConfig :=
  { retryIntervalMs := 30000, batchSize := 10 }

/-- An event that already failed once with its backoff anchor at clock 0. -/
def zeroAnchorEvent : QueuedTelemetryEvent :=
  { id := "a", event := 3, timestamp := 0, retryCount := 1,
    lastRetryTimestamp := some 0, error := some "first failure" }

/-- C2.  Divergence witness: with `retryCount = 1` and `lastAttemptAt = 0`,
the backoff gate is `0 + 2^1 · 1000 = 2000 ms`, so at clock `1000` the event
must be excluded — yet `getEventsForRetry` returns it, because the source
tests `!item.lastRetryTimestamp`, and in JavaScript the number `0` is falsy,
so a zero anchor is mistaken for "no attempt yet" (the source comment says
this branch is for the first retry).  This is exactly scenario B of the
spec, which expects ineligibility at 1000 ms. -/
theorem getEventsForRetry_zero_anchor_divergence :
    TelemetryQueue.getEventsForRetry defaultQueueConfig 1000
        { queue := [zeroAnchorEvent], queueWrites := 0 }
      = [zeroAnchorEvent]
    ∧ zeroAnchorEvent.retryCount < defaultQueueConfig.maxRetries
    ∧ zeroAnchorEvent.lastRetryTimestamp = some 0
    ∧ 1000 < zeroAnchorEvent.lastRetryTimestamp.getD 0
        + 2 ^ zeroAnchorEvent.retryCount * 1000 := by
  refine ⟨by decide, by decide, rfl, by decide⟩

/-- The update loop of a batch touches only the store and the update log. -/
theorem applyResult_frame (now : Nat) (m : TelemetryRetryManager.ManagerState)
    (result : Except String BatchOutcome) :
    (TelemetryRetryManager.applyResult now m result).isConnected = m.isConnected
    ∧ (TelemetryRetryManager.applyResult now m result).connCalls = m.connCalls
    ∧ (TelemetryRetryManager.applyResult now m result).sizeCalls = m.sizeCalls
    ∧ (TelemetryRetryManager.applyResult now m result).isProcessing = m.isProcessing
    ∧ (TelemetryRetryManager.applyResult now m result).lastConnectionCheck
        = m.lastConnectionCheck := by
  cases result <;> exact ⟨rfl, rfl, rfl, rfl, rfl⟩

/-- Folding the update loop over all settled results touches only the store
and the update log. -/
theorem foldl_applyResult_frame (now : Nat) :
    ∀ (results : List (Except String BatchOutcome))
      (m : TelemetryRetryManager.ManagerState),
      (results.foldl (TelemetryRetryManager.applyResult now) m).isConnected = m.isConnected
      ∧ (results.foldl (TelemetryRetryManager.applyResult now) m).connCalls = m.connCalls
      ∧ (results.foldl (TelemetryRetryManager.applyResult now) m).sizeCalls = m.sizeCalls
      ∧ (results.foldl (TelemetryRetryManager.applyResult now) m).isProcessing
          = m.isProcessing
      ∧ (results.foldl (TelemetryRetryManager.applyResult now) m).lastConnectionCheck
          = m.lastConnectionCheck := by
  intro results
  induction results with
  | nil => intro m; exact ⟨rfl, rfl, rfl, rfl, rfl⟩
  | cons r rs ih =>
    intro m
    have h1 := applyResult_frame now m r
    have h2 := ih (TelemetryRetryManager.applyResult now m r)
    exact ⟨h2.1.trans h1.1, h2.2.1.trans h1.2.1, h2.2.2.1.trans h1.2.2.1,
      h2.2.2.2.1.trans h1.2.2.2.1, h2.2.2.2.2.trans h1.2.2.2.2⟩

/-- The status setter always leaves the requested value in the flag. -/
theorem updateConnectionStatus_isConnected (b : Bool)
    (m : TelemetryRetryManager.ManagerState) :
    (TelemetryRetryManager.updateConnectionStatus b m).isConnected = b := by
  unfold TelemetryRetryManager.updateConnectionStatus
  split
  · next h => exact eq_of_beq h
  · rfl

/-- The status setter touches only the status flag and the status-callback
log. -/
theorem updateConnectionStatus_frame (b : Bool)
    (m : TelemetryRetryManager.ManagerState) :
    (TelemetryRetryManager.updateConnectionStatus b m).store = m.store
    ∧ (TelemetryRetryManager.updateConnectionStatus b m).sizeCalls = m.sizeCalls
    ∧ (TelemetryRetryManager.updateConnectionStatus b m).updateCalls = m.updateCalls
    ∧ (TelemetryRetryManager.updateConnectionStatus b m).isProcessing = m.isProcessing
    ∧ (TelemetryRetryManager.updateConnectionStatus b m).lastConnectionCheck
        = m.lastConnectionCheck := by
  unfold TelemetryRetryManager.updateConnectionStatus
  split <;> exact ⟨rfl, rfl, rfl, rfl, rfl⟩

/-- Success count over the settled results, in terms of the transport. -/
theorem countP_fulfilledSuccess (send : SendFn) (batch : List QueuedTelemetryEvent) :
    (batch.map (TelemetryRetryManager.dispatchTask send)).countP
        TelemetryRetryManager.fulfilledSuccess
      = batch.countP (TelemetryRetryManager.sendOk send) := by
  rw [List.countP_map]
  have hfun : (TelemetryRetryManager.fulfilledSuccess ∘ TelemetryRetryManager.dispatchTask send)
      = TelemetryRetryManager.sendOk send := by
    funext qe
    cases h : send qe.event <;>
      simp [Function.comp, TelemetryRetryManager.dispatchTask,
        TelemetryRetryManager.fulfilledSuccess, TelemetryRetryManager.sendOk, h]
  rw [hfun]

/-- Failure count over the settled results, in terms of the transport. -/
theorem countP_fulfilledFailure (send : SendFn) (batch : List QueuedTelemetryEvent) :
    (batch.map (TelemetryRetryManager.dispatchTask send)).countP
        TelemetryRetryManager.fulfilledFailure
      = batch.countP (fun qe => !TelemetryRetryManager.sendOk send qe) := by
  rw [List.countP_map]
  have hfun : (TelemetryRetryManager.fulfilledFailure ∘ TelemetryRetryManager.dispatchTask send)
      = fun qe => !TelemetryRetryManager.sendOk send qe := by
    funext qe
    cases h : send qe.event <;>
      simp [Function.comp, TelemetryRetryManager.dispatchTask,
        TelemetryRetryManager.fulfilledFailure, TelemetryRetryManager.sendOk, h]
  rw [hfun]

/-- Closed form of the connection flag after a batch. -/
theorem processBatch_isConnected (send : SendFn) (now : Nat)
    (batch : List QueuedTelemetryEvent) (m : TelemetryRetryManager.ManagerState) :
    (TelemetryRetryManager.processBatch send now batch m).isConnected =
      (if 0 < batch.countP (TelemetryRetryManager.sendOk send) ∧ m.isConnected = false
       then true
       else if batch.countP (fun qe => !TelemetryRetryManager.sendOk send qe) = batch.length
              ∧ m.isConnected = true
       then false
       else m.isConnected) := by
  have hfr := foldl_applyResult_frame now
    (batch.map (TelemetryRetryManager.dispatchTask send)) m
  simp only [TelemetryRetryManager.processBatch, countP_fulfilledSuccess,
    countP_fulfilledFailure, hfr.1]
  by_cases h1 : 0 < batch.countP (TelemetryRetryManager.sendOk send) <;>
    by_cases h2 : batch.countP (fun qe => !TelemetryRetryManager.sendOk send qe)
        = batch.length <;>
      cases hc : m.isConnected <;>
        simp [h1, h2, hc, hfr.1, updateConnectionStatus_isConnected]

/-- C6.  The status derived from a batch's aggregate outcome: at least one
delivered event while disconnected flips the manager to connected; a batch
in which every event failed while connected flips it to disconnected; every
other combination leaves the status where it was. -/
theorem processBatch_status_transitions (send : SendFn) (now : Nat)
    (batch : List QueuedTelemetryEvent) (m : TelemetryRetryManager.ManagerState) :
    ((∃ qe ∈ batch, TelemetryRetryManager.sendOk send qe = true) →
      m.isConnected = false →
      (TelemetryRetryManager.processBatch send now batch m).isConnected = true)
    ∧ ((∀ qe ∈ batch, TelemetryRetryManager.sendOk send qe = false) →
      m.isConnected = true →
      (TelemetryRetryManager.processBatch send now batch m).isConnected = false)
    ∧ (¬ ((∃ qe ∈ batch, TelemetryRetryManager.sendOk send qe = true)
            ∧ m.isConnected = false) →
      ¬ ((∀ qe ∈ batch, TelemetryRetryManager.sendOk send qe = false)
            ∧ m.isConnected = true) →
      (TelemetryRetryManager.processBatch send now batch m).isConnected
        = m.isConnected) := by
  refine ⟨?_, ?_, ?_⟩
  · intro hex hconn
    rw [processBatch_isConnected]
    exact if_pos ⟨List.countP_pos_iff.mpr hex, hconn⟩
  · intro hall hconn
    rw [processBatch_isConnected]
    rw [if_neg (by simp [hconn])]
    exact if_pos ⟨List.countP_eq_length.mpr (fun qe hqe => by rw [hall qe hqe]; rfl), hconn⟩
  · intro hn1 hn2
    rw [processBatch_isConnected]
    rw [if_neg (fun h => hn1 ⟨List.countP_pos_iff.mp h.1, h.2⟩)]
    exact if_neg (fun h =>
      hn2 ⟨fun qe hqe => by
        have := List.countP_eq_length.mp h.1 qe hqe
        simpa using this, h.2⟩)

/-- A transport that delivers only payload 6. -/
def sendOnlySix : SendFn := fun n => if n = 6 then Except.ok () else Except.error "down"

/-- A disconnected manager holding the sample two-event store. -/
def disconnectedManager : TelemetryRetryManager.ManagerState :=
  { store := { queue := [matchEvent, otherEvent], queueWrites := 0 },
    isProcessing := false, isConnected := false, lastConnectionCheck := 0,
    connCalls := [], sizeCalls := [], updateCalls := [] }

/-- Witness for C6: `otherEvent` (payload 6) is delivered, so a batch
containing it flips the disconnected manager back to connected. -/
theorem processBatch_status_transitions_witness :
    (TelemetryRetryManager.processBatch sendOnlySix 40 [matchEvent, otherEvent]
      disconnectedManager).isConnected = true := by
  exact (processBatch_status_transitions sendOnlySix 40 [matchEvent, otherEvent]
    disconnectedManager).1 (by decide) rfl

/-- C7.  The status setter is strictly edge-triggered: a same-value update
changes nothing and fires no callback, while a genuine transition records
the new value and fires the callback exactly once — with the new value,
which by the guard differs from the status that was current when it
fired. -/
theorem updateConnectionStatus_edge_triggered (b : Bool)
    (m : TelemetryRetryManager.ManagerState) :
    (b = m.isConnected → TelemetryRetryManager.updateConnectionStatus b m = m)
    ∧ (b ≠ m.isConnected →
        (TelemetryRetryManager.updateConnectionStatus b m).connCalls = m.connCalls ++ [b]
        ∧ (TelemetryRetryManager.updateConnectionStatus b m).isConnected = b) := by
  constructor
  · intro h
    unfold TelemetryRetryManager.updateConnectionStatus
    rw [if_pos]
    exact beq_iff_eq.mpr h.symm
  · intro h
    unfold TelemetryRetryManager.updateConnectionStatus
    rw [if_neg]
    · exact ⟨rfl, rfl⟩
    · simp only [beq_iff_eq]
      exact fun hc => h (hc.symm)

/-- Witness for C7: flipping a disconnected manager to connected fires the
callback once with `true`; pushing `false` again is silent. -/
theorem updateConnectionStatus_edge_triggered_witness :
    (TelemetryRetryManager.updateConnectionStatus true disconnectedManager).connCalls
        = [true]
    ∧ TelemetryRetryManager.updateConnectionStatus false disconnectedManager
        = disconnectedManager := by
  constructor
  · exact ((updateConnectionStatus_edge_triggered true disconnectedManager).2
      (by decide)).1.trans (by decide)
  · exact (updateConnectionStatus_edge_triggered false disconnectedManager).1 (by decide)

/-- Folding the update loop over the settled results of a batch logs exactly
one `updateEventAfterRetry` call per batch element, in order, with that
event's outcome. -/
theorem foldl_applyResult_updateCalls (send : SendFn) (now : Nat) :
    ∀ (batch : List QueuedTelemetryEvent) (m : TelemetryRetryManager.ManagerState),
      ((batch.map (TelemetryRetryManager.dispatchTask send)).foldl
          (TelemetryRetryManager.applyResult now) m).updateCalls
        = m.updateCalls ++ batch.map (fun qe =>
            (qe.id, TelemetryRetryManager.sendOk send qe,
              TelemetryRetryManager.sendErr send qe)) := by
  intro batch
  induction batch with
  | nil => intro m; simp
  | cons qe rest ih =>
    intro m
    simp only [List.map_cons, List.foldl_cons]
    rw [ih]
    cases h : send qe.event <;>
      simp [TelemetryRetryManager.applyResult, TelemetryRetryManager.dispatchTask,
        TelemetryRetryManager.sendOk, TelemetryRetryManager.sendErr, h]

/-- C9.  Every dispatch task of a batch settles as fulfilled — the rejected
branch of the settle-all join is unreachable, because the task body catches
the send failure itself — and consequently every event of the batch is fed
back through `updateEventAfterRetry` exactly once, in batch order, whatever
the mix of sibling outcomes. -/
theorem processBatch_settles_all_updates_once (send : SendFn) (now : Nat)
    (batch : List QueuedTelemetryEvent) (m : TelemetryRetryManager.ManagerState) :
    (∀ result ∈ batch.map (TelemetryRetryManager.dispatchTask send),
        ∃ o : BatchOutcome, result = Except.ok o)
    ∧ (TelemetryRetryManager.processBatch send now batch m).updateCalls
        = m.updateCalls ++ batch.map (fun qe =>
            (qe.id, TelemetryRetryManager.sendOk send qe,
              TelemetryRetryManager.sendErr send qe)) := by
  constructor
  · intro result hr
    rcases List.mem_map.mp hr with ⟨qe, hqe, rfl⟩
    unfold TelemetryRetryManager.dispatchTask
    cases send qe.event <;> exact ⟨_, rfl⟩
  · have hfold := foldl_applyResult_updateCalls send now batch m
    simp only [TelemetryRetryManager.processBatch]
    split
    · rw [(updateConnectionStatus_frame _ _).2.2.1]
      exact hfold
    · split
      · rw [(updateConnectionStatus_frame _ _).2.2.1]
        exact hfold
      · exact hfold

/-- Witness for C9: a mixed batch (payload 5 fails, payload 6 delivers)
produces exactly one update call per event, in order. -/
theorem processBatch_settles_all_updates_once_witness :
    (TelemetryRetryManager.processBatch sendOnlySix 40 [matchEvent, otherEvent]
        disconnectedManager).updateCalls
      = [("m", false, some "down"), ("n", true, none)] := by
  exact (processBatch_settles_all_updates_once sendOnlySix 40 [matchEvent, otherEvent]
    disconnectedManager).2.trans (by decide)

/-- C10 (amended).  `queueFailedEvent` always enqueues and then fires the
size callback with the post-enqueue `(size, isAboveWarningThreshold)` pair
— whatever the error argument and whether or not the status changes — and
flips the status to disconnected exactly when a non-empty error string
arrives while the manager believes itself connected. -/
theorem queueFailedEvent_enqueue_and_notify (cfg : TelemetryQueueConfig) (now : Nat)
    (newId : String) (event : TelemetryEventData) (error : Option String)
    (m : TelemetryRetryManager.ManagerState) :
    (TelemetryRetryManager.queueFailedEvent cfg now newId event error m).store
        = TelemetryQueue.enqueue cfg now newId event error m.store
    ∧ (TelemetryRetryManager.queueFailedEvent cfg now newId event error m).sizeCalls
        = m.sizeCalls
            ++ [((TelemetryQueue.enqueue cfg now newId event error m.store).queue.length,
                decide (cfg.queueSizeWarningThreshold
                  ≤ (TelemetryQueue.enqueue cfg now newId event error m.store).queue.length))]
    ∧ (TelemetryRetryManager.queueFailedEvent cfg now newId event error m).isConnected
        = (if jsTruthyStr error && m.isConnected then false else m.isConnected)
    ∧ (TelemetryRetryManager.queueFailedEvent cfg now newId event error m).connCalls
        = m.connCalls ++ (if jsTruthyStr error && m.isConnected then [false] else []) := by
  by_cases ht : jsTruthyStr error = true <;> cases hc : m.isConnected <;>
    simp [TelemetryRetryManager.queueFailedEvent,
      TelemetryRetryManager.notifyQueueSizeChange,
      TelemetryRetryManager.updateConnectionStatus,
      TelemetryQueue.getQueueMetadata, ht, hc]

/-- A connected manager over an empty store. -/
def connectedManager : TelemetryRetryManager.ManagerState :=
  { store := { queue := [], queueWrites := 0 },
    isProcessing := false, isConnected := true, lastConnectionCheck := 0,
    connCalls := [], sizeCalls := [], updateCalls := [] }

/-- C10, counterexample to the claim as stated: the empty string is a
provided error, and the manager is connected, yet no disconnected flip (and
no status callback) happens, because the source guard `error &&
this.isConnected` treats the empty string as falsy; the enqueue and the
size callback still take place. -/
theorem queueFailedEvent_empty_error_no_flip :
    connectedManager.isConnected = true
    ∧ (TelemetryRetryManager.queueFailedEvent defaultQueueConfig 50 "w" 9 (some "")
        connectedManager).isConnected = true
    ∧ (TelemetryRetryManager.queueFailedEvent defaultQueueConfig 50 "w" 9 (some "")
        connectedManager).connCalls = []
    ∧ (TelemetryRetryManager.queueFailedEvent defaultQueueConfig 50 "w" 9 (some "")
        connectedManager).sizeCalls = [(1, false)] := by
  refine ⟨rfl, by decide, by decide, by decide⟩

/-- A batch never touches the size-callback log. -/
theorem processBatch_sizeCalls (send : SendFn) (now : Nat)
    (batch : List QueuedTelemetryEvent) (m : TelemetryRetryManager.ManagerState) :
    (TelemetryRetryManager.processBatch send now batch m).sizeCalls = m.sizeCalls := by
  have hfold := foldl_applyResult_frame now
    (batch.map (TelemetryRetryManager.dispatchTask send)) m
  simp only [TelemetryRetryManager.processBatch]
  split
  · exact ((updateConnectionStatus_frame _ _).2.1).trans hfold.2.2.1
  · split
    · exact ((updateConnectionStatus_frame _ _).2.1).trans hfold.2.2.1
    · exact hfold.2.2.1

/-- A batch never touches the processing guard. -/
theorem processBatch_isProcessing (send : SendFn) (now : Nat)
    (batch : List QueuedTelemetryEvent) (m : TelemetryRetryManager.ManagerState) :
    (TelemetryRetryManager.processBatch send now batch m).isProcessing = m.isProcessing := by
  have hfold := foldl_applyResult_frame now
    (batch.map (TelemetryRetryManager.dispatchTask send)) m
  simp only [TelemetryRetryManager.processBatch]
  split
  · exact ((updateConnectionStatus_frame _ _).2.2.2.1).trans hfold.2.2.2.1
  · split
    · exact ((updateConnectionStatus_frame _ _).2.2.2.1).trans hfold.2.2.2.1
    · exact hfold.2.2.2.1

/-- Sequential batch processing never touches the size-callback log. -/
theorem foldl_processBatch_sizeCalls (send : SendFn) (now : Nat) :
    ∀ (batches : List (List QueuedTelemetryEvent))
      (m : TelemetryRetryManager.ManagerState),
      (batches.foldl (fun acc batch => TelemetryRetryManager.processBatch send now batch acc)
          m).sizeCalls = m.sizeCalls := by
  intro batches
  induction batches with
  | nil => intro m; rfl
  | cons b bs ih =>
    intro m
    simp only [List.foldl_cons]
    exact (ih _).trans (processBatch_sizeCalls send now b m)

/-- Sequential batch processing never touches the processing guard. -/
theorem foldl_processBatch_isProcessing (send : SendFn) (now : Nat) :
    ∀ (batches : List (List QueuedTelemetryEvent))
      (m : TelemetryRetryManager.ManagerState),
      (batches.foldl (fun acc batch => TelemetryRetryManager.processBatch send now batch acc)
          m).isProcessing = m.isProcessing := by
  intro batches
  induction batches with
  | nil => intro m; rfl
  | cons b bs ih =>
    intro m
    simp only [List.foldl_cons]
    exact (ih _).trans (processBatch_isProcessing send now b m)

/-- The connectivity probe never touches the durable store. -/
theorem checkConnectionStatus_store (send : SendFn) (now : Nat)
    (m : TelemetryRetryManager.ManagerState) :
    (TelemetryRetryManager.checkConnectionStatus send now m).store = m.store := by
  unfold TelemetryRetryManager.checkConnectionStatus
  split
  · rfl
  · split
    · dsimp only
      split
      · exact (updateConnectionStatus_frame _ _).1
      · rfl
    · dsimp only
      split
      · exact (updateConnectionStatus_frame _ _).1
      · rfl

/-- The connectivity probe never touches the size-callback log. -/
theorem checkConnectionStatus_sizeCalls (send : SendFn) (now : Nat)
    (m : TelemetryRetryManager.ManagerState) :
    (TelemetryRetryManager.checkConnectionStatus send now m).sizeCalls = m.sizeCalls := by
  unfold TelemetryRetryManager.checkConnectionStatus
  split
  · rfl
  · split
    · dsimp only
      split
      · exact (updateConnectionStatus_frame _ _).2.1
      · rfl
    · dsimp only
      split
      · exact (updateConnectionStatus_frame _ _).2.1
      · rfl

/-- The connectivity probe never touches the processing guard. -/
theorem checkConnectionStatus_isProcessing (send : SendFn) (now : Nat)
    (m : TelemetryRetryManager.ManagerState) :
    (TelemetryRetryManager.checkConnectionStatus send now m).isProcessing
      = m.isProcessing := by
  unfold TelemetryRetryManager.checkConnectionStatus
  split
  · rfl
  · split
    · dsimp only
      split
      · exact (updateConnectionStatus_frame _ _).2.2.2.1
      · rfl
    · dsimp only
      split
      · exact (updateConnectionStatus_frame _ _).2.2.2.1
      · rfl

/-- C8 (amended).  A processing cycle that acquires the re-entrancy guard
and finds a non-empty eligible set ends by firing the queue-size callback
with the final store's `(size, isAboveWarningThreshold)` pair; a cycle whose
eligible set is empty returns early and fires no size callback; in both
cases the guard is released. -/
theorem processQueue_size_callback (cfg : TelemetryQueueConfig)
    (mcfg : RetryManagerConfig) (send : SendFn) (now : Nat)
    (m : TelemetryRetryManager.ManagerState) (hguard : m.isProcessing = false) :
    (TelemetryQueue.getEventsForRetry cfg now
          (TelemetryQueue.pruneFailedEvents cfg m.store).2 = [] →
      (TelemetryRetryManager.processQueue cfg mcfg send now m).sizeCalls = m.sizeCalls)
    ∧ (TelemetryQueue.getEventsForRetry cfg now
          (TelemetryQueue.pruneFailedEvents cfg m.store).2 ≠ [] →
      (TelemetryRetryManager.processQueue cfg mcfg send now m).sizeCalls
        = m.sizeCalls
            ++ [((TelemetryRetryManager.processQueue cfg mcfg send now m).store.queue.length,
                decide (cfg.queueSizeWarningThreshold
                  ≤ (TelemetryRetryManager.processQueue cfg mcfg send now
                      m).store.queue.length))])
    ∧ (TelemetryRetryManager.processQueue cfg mcfg send now m).isProcessing = false := by
  by_cases hE : TelemetryQueue.getEventsForRetry cfg now
      (TelemetryQueue.pruneFailedEvents cfg m.store).2 = []
  · have hpq : TelemetryRetryManager.processQueue cfg mcfg send now m
        = { m with store := (TelemetryQueue.pruneFailedEvents cfg m.store).2,
                   isProcessing := false } := by
      simp [TelemetryRetryManager.processQueue, hguard, hE]
    exact ⟨fun _ => by rw [hpq], fun hne => absurd hE hne, by rw [hpq]⟩
  · have hpq : TelemetryRetryManager.processQueue cfg mcfg send now m
        = { TelemetryRetryManager.notifyQueueSizeChange cfg
              (TelemetryRetryManager.checkConnectionStatus send now
                ((TelemetryRetryManager.createBatches mcfg.batchSize
                    (TelemetryQueue.getEventsForRetry cfg now
                      (TelemetryQueue.pruneFailedEvents cfg m.store).2)).foldl
                  (fun acc batch => TelemetryRetryManager.processBatch send now batch acc)
                  { m with store := (TelemetryQueue.pruneFailedEvents cfg m.store).2,
                           isProcessing := true }))
            with isProcessing := false } := by
      simp [TelemetryRetryManager.processQueue, hguard, hE]
    rw [hpq]
    refine ⟨fun h => absurd h (by simp [hE]), fun _ => ?_, rfl⟩
    simp only [TelemetryRetryManager.notifyQueueSizeChange, TelemetryQueue.getQueueMetadata]
    rw [checkConnectionStatus_sizeCalls, foldl_processBatch_sizeCalls]

/-- A transport that rejects every payload. -/
def sendNothing : SendFn := fun _ => Except.error "down"

/-- C8, counterexample to the claim as stated: the guard is free and the
eligible set is empty, so the cycle takes the early `return` inside the
`try` block — which skips not only dispatch and the probe but also the
queue-size callback: no size callback is recorded for the cycle. -/
theorem processQueue_empty_cycle_no_callback :
    connectedManager.isProcessing = false
    ∧ TelemetryQueue.getEventsForRetry defaultQueueConfig 0
        (TelemetryQueue.pruneFailedEvents defaultQueueConfig connectedManager.store).2 = []
    ∧ (TelemetryRetryManager.processQueue defaultQueueConfig defaultRetryConfig
        sendNothing 0 connectedManager).sizeCalls = []
    ∧ connectedManager.sizeCalls = [] := by
  refine ⟨rfl, rfl, by decide, rfl⟩

/-- A not-yet-attempted queued event, immediately eligible for retry. -/
def freshEvent : QueuedTelemetryEvent :=
  { id := "p", event := 2, timestamp := 0, retryCount := 0,
    lastRetryTimestamp := none, error := none }

/-- A guard-free manager holding one immediately eligible event. -/
def pendingManager : TelemetryRetryManager.ManagerState :=
  { store := { queue := [freshEvent], queueWrites := 0 },
    isProcessing := false, isConnected := true, lastConnectionCheck := 0,
    connCalls := [], sizeCalls := [], updateCalls := [] }

/-- Witness for C8: a cycle with one eligible event (whose send fails)
fires the size callback once, with the final size 1 and the
below-threshold flag. -/
theorem processQueue_size_callback_witness :
    (TelemetryRetryManager.processQueue defaultQueueConfig defaultRetryConfig
        sendNothing 0 pendingManager).sizeCalls = [(1, false)] := by
  have h := (processQueue_size_callback defaultQueueConfig defaultRetryConfig
    sendNothing 0 pendingManager rfl).2.1 (by decide)
  exact h.trans (by decide)
